import Mathlib

/-!
Verification of the scene-designer log services.

This file gives a shallow embedding of the two Python programs of the
repository:

* `src/logstream_server.py` — a Flask app with a single `POST /logstream`
  handler that optionally checks a bearer token, parses the JSON body and
  appends one formatted line to a log file;
* `src/start_http.py` — a restricted static HTTP server with an allow-list
  for `GET`, a `POST /log` browser-log endpoint, and a background timer that
  shuts the server down after a fixed timeout.

Pure Python values that can appear as a parsed JSON document are embedded as
the inductive `Json`; Python string conversion (`str(...)` in an f-string,
`repr`, `json.dumps`) is embedded by `pyStr`, `pyRepr` and `jsonDumps`.
HTTP handlers become pure functions from configuration and request data to
an explicit outcome recording the status code, the response body and the
text appended to the log file (if any).  The JSON parser itself is library
code, not code of this repository, so a request body is embedded directly
as its parse result `Except Unit Json`.  File-system writes are embedded by
a boolean `writeOk` input: the Python `open(...)/write` either succeeds or
raises, and the handlers branch on that.
-/

/-- A parsed JSON document, as produced by Python's `json.loads` /
Flask's `request.get_json`: `None`, booleans, numbers (restricted here to
integers), strings, lists and dicts. -/
inductive Json where
  | null
  | boolean (b : Bool)
  | num (n : Int)
  | str (s : String)
  | arr (elems : List Json)
  | obj (fields : List (String × Json))

/-- Escape one character the way Python's `repr` escapes it inside a
single-quoted string literal. -/
def pyEscapeChar (c : Char) : String :=
  if c = '\\' then "\\\\"
  else if c = Char.ofNat 39 then "\\" ++ String.singleton (Char.ofNat 39)
  else if c = '\n' then "\\n"
  else if c = '\t' then "\\t"
  else if c = '\r' then "\\r"
  else String.singleton c

/-- Python `repr` of a string: single quotes around the escaped content. -/
def pyReprStr (s : String) : String :=
  String.singleton (Char.ofNat 39)
    ++ String.join (s.toList.map pyEscapeChar)
    ++ String.singleton (Char.ofNat 39)

mutual

/-- Python `repr` of a parsed JSON value (used by `str` on containers). -/
def pyRepr : Json → String
  | .null => "None"
  | .boolean true => "True"
  | .boolean false => "False"
  | .num n => toString n
  | .str s => pyReprStr s
  | .arr xs => "[" ++ pyReprElems xs ++ "]"
  | .obj fs => "\x7b" ++ pyReprFields fs ++ "\x7d"

/-- `repr` of list elements, comma-separated. -/
def pyReprElems : List Json → String
  | [] => ""
  | [x] => pyRepr x
  | x :: y :: rest => pyRepr x ++ ", " ++ pyReprElems (y :: rest)

/-- `repr` of dict entries, comma-separated. -/
def pyReprFields : List (String × Json) → String
  | [] => ""
  | [(k, v)] => pyReprStr k ++ ": " ++ pyRepr v
  | (k, v) :: e :: rest => pyReprStr k ++ ": " ++ pyRepr v ++ ", " ++ pyReprFields (e :: rest)

end

/-- Python `str(...)` as applied by an f-string: strings pass through
unchanged, every other value prints as its `repr`
(`None`, `True`, `-3`, `[1, 2]`, ...). -/
def pyStr : Json → String
  | .str s => s
  | j => pyRepr j

/-- Escape one character for `json.dumps` string output. -/
def jsonEscapeChar (c : Char) : String :=
  if c = '\\' then "\\\\"
  else if c = '"' then "\\\""
  else if c = '\n' then "\\n"
  else if c = '\t' then "\\t"
  else if c = '\r' then "\\r"
  else String.singleton c

/-- `json.dumps` of a string. -/
def jsonDumpsStr (s : String) : String :=
  "\"" ++ String.join (s.toList.map jsonEscapeChar) ++ "\""

mutual

/-- Python `json.dumps` with default separators, as used for the `extra`
payload in `start_http.py`'s `do_POST`. -/
def jsonDumps : Json → String
  | .null => "null"
  | .boolean true => "true"
  | .boolean false => "false"
  | .num n => toString n
  | .str s => jsonDumpsStr s
  | .arr xs => "[" ++ jsonDumpsElems xs ++ "]"
  | .obj fs => "\x7b" ++ jsonDumpsFields fs ++ "\x7d"

/-- `json.dumps` of list elements, comma-separated. -/
def jsonDumpsElems : List Json → String
  | [] => ""
  | [x] => jsonDumps x
  | x :: y :: rest => jsonDumps x ++ ", " ++ jsonDumpsElems (y :: rest)

/-- `json.dumps` of dict entries, comma-separated. -/
def jsonDumpsFields : List (String × Json) → String
  | [] => ""
  | [(k, v)] => jsonDumpsStr k ++ ": " ++ jsonDumps v
  | (k, v) :: e :: rest => jsonDumpsStr k ++ ": " ++ jsonDumps v ++ ", " ++ jsonDumpsFields (e :: rest)

end

/-- Python `dict.get(k)` on a parsed JSON object: the value stored under
key `k`, if any. -/
def dictFind (fields : List (String × Json)) (k : String) : Option Json :=
  (fields.find? (fun kv => kv.1 == k)).map (·.2)

/-- `f"{data.get(k, dflt)}"` where `dflt` is a Python string: the stored
value converted by `str`, or the default when the key is absent. -/
def dictGetStr (fields : List (String × Json)) (k : String) (dflt : String) : String :=
  match dictFind fields k with
  | some v => pyStr v
  | none => dflt

/-- Number of newline characters in a string; a file that ends in a newline
gains exactly this many (text-file) lines when the string is appended. -/
def countNewlines (s : String) : Nat :=
  (s.toList.filter (fun c => c == '\n')).length

/-!
### Python `str` methods

Python's `str.strip`, `str.lower`, `str.upper`, `str.startswith` and
slicing are embedded explicitly over the character list of a string, so
that all of them compute by the kernel on concrete inputs.
-/

/-- The characters Python `str.strip()` removes: space, tab, newline,
carriage return, vertical tab and form feed. -/
def isPySpace (c : Char) : Bool :=
  c = ' ' || c = '\t' || c = '\n' || c = '\r' || c = Char.ofNat 11 || c = Char.ofNat 12

/-- Python `str.strip()` on a character list: whitespace removed from both
ends. -/
def pyStripList (cs : List Char) : List Char :=
  ((cs.dropWhile isPySpace).reverse.dropWhile isPySpace).reverse

/-- Python `str.strip()`. -/
def pyStrip (s : String) : String :=
  ⟨pyStripList s.toList⟩

/-- Python `str.lower()` on one character (ASCII, which is all the code
compares against). -/
def pyLowerChar (c : Char) : Char :=
  if 65 ≤ c.toNat && c.toNat ≤ 90 then Char.ofNat (c.toNat + 32) else c

/-- Python `str.lower()`. -/
def pyLower (s : String) : String :=
  ⟨s.toList.map pyLowerChar⟩

/-- Python `str.upper()` on one character (ASCII). -/
def pyUpperChar (c : Char) : Char :=
  if 97 ≤ c.toNat && c.toNat ≤ 122 then Char.ofNat (c.toNat - 32) else c

/-- Python `str.upper()`. -/
def pyUpper (s : String) : String :=
  ⟨s.toList.map pyUpperChar⟩

/-- Whether the first list is a prefix of the second. -/
def listIsPrefix : List Char → List Char → Bool
  | [], _ => true
  | _ :: _, [] => false
  | a :: as, b :: bs => a == b && listIsPrefix as bs

/-- Python `s.startswith(pre)`. -/
def pyStartsWith (s pre : String) : Bool :=
  listIsPrefix pre.toList s.toList

/-- Python slicing `s[n:]` (also `str.split(sep, 1)[1]` once the prefix up
to and including the separator occupies the first `n` characters). -/
def pyDrop (s : String) (n : Nat) : String :=
  ⟨s.toList.drop n⟩

/-!
## `src/logstream_server.py`
-/

/-- The environment the Flask app reads at startup (lines 9–11 of
`logstream_server.py`): `LOGSTREAM_SECRET`, `LOGSTREAM_TOKEN_CHECK` and
`LOGSTREAM_FILE`, each `none` when the variable is unset. -/
structure LSConfig where
  secretEnv : Option String
  tokenCheckEnv : Option String
  logFileEnv : Option String

/-- `LOGSTREAM_TOKEN = os.environ.get("LOGSTREAM_SECRET")` (line 9). -/
def LOGSTREAM_TOKEN (cfg : LSConfig) : Option String :=
  cfg.secretEnv

/-- `LOGSTREAM_TOKEN_CHECK = os.environ.get("LOGSTREAM_TOKEN_CHECK", "1")`
(line 10). -/
def LOGSTREAM_TOKEN_CHECK (cfg : LSConfig) : String :=
  cfg.tokenCheckEnv.getD "1"

/-- `LOG_FILE = os.environ.get("LOGSTREAM_FILE", "/tmp/client_logs.txt")`
(line 11). -/
def LOG_FILE (cfg : LSConfig) : String :=
  cfg.logFileEnv.getD "/tmp/client_logs.txt"

/-- `token_check_enabled()` (lines 13–14):
`str(LOGSTREAM_TOKEN_CHECK).strip().lower() not in ("0", "no", "false", "")`. -/
def token_check_enabled (cfg : LSConfig) : Bool :=
  !(pyLower (pyStrip (LOGSTREAM_TOKEN_CHECK cfg)) ∈ ["0", "no", "false", ""])

/-- Python truthiness of the optional secret (`LOGSTREAM_TOKEN` in
`if token_check_enabled() and LOGSTREAM_TOKEN:`, line 21): an unset
variable is `None` (falsy) and the empty string is falsy. -/
def pyTruthy : Option String → Bool
  | none => false
  | some s => s ≠ ""

/-- A `POST /logstream` request: the `Authorization` header (if present)
and the body, embedded as the result of `request.get_json(force=True)` —
`Except.error` when the body is not parseable as JSON, `Except.ok j`
when it parses to the document `j`. -/
structure LSRequest where
  authorization : Option String
  body : Except Unit Json

/-- `request.headers.get("Authorization", "")` (line 22). -/
def authHeader (req : LSRequest) : String :=
  req.authorization.getD ""

/-- Outcome of the handler: an HTTP response together with the text
appended to the log file (`none` when nothing was appended), or an
uncaught Python exception (`data.get` called on a non-dict value, which
the `try/except` around `get_json` does not cover). -/
inductive LSOutcome where
  | response (status : Nat) (body : String) (appended : Option String)
  | pyError
deriving DecidableEq

/-- Status code of an outcome (`none` for an uncaught exception, which
Flask turns into an internal error outside the handler's own code). -/
def LSOutcome.statusOf : LSOutcome → Option Nat
  | .response s _ _ => some s
  | .pyError => none

/-- Text appended to the log file by an outcome. -/
def LSOutcome.appendedOf : LSOutcome → Option String
  | .response _ _ a => a
  | .pyError => none

/-- The log line built at lines 34–37:
`f"{data.get('timestamp', '')} [{data.get('level', 'INFO')}] "`
`f"{data.get('message', '')} | page={data.get('page', '')} | agent={data.get('userAgent', '')}"`. -/
def format_log_line (fields : List (String × Json)) : String :=
  dictGetStr fields "timestamp" "" ++ " [" ++ dictGetStr fields "level" "INFO" ++ "] "
    ++ dictGetStr fields "message" "" ++ " | page=" ++ dictGetStr fields "page" ""
    ++ " | agent=" ++ dictGetStr fields "userAgent" ""

/-- Lines 29–45 of the handler, after the token check: parse the body
(400 on failure), build the log line with `data.get` (an uncaught
exception when the parsed document is not a dict), append it plus a
newline (500 when the write raises), return `('', 204)`. -/
def logstream_after_auth (writeOk : Bool) (body : Except Unit Json) : LSOutcome :=
  match body with
  | .error _ => .response 400 "Invalid JSON" none
  | .ok (.obj fields) =>
      let log_line := format_log_line fields
      if writeOk then .response 204 "" (some (log_line ++ "\n"))
      else .response 500 "Failed to write log" none
  | .ok _ => .pyError

/-- The `logstream` handler (lines 17–45): the bearer-token check
(lines 21–27) when enabled and a truthy secret is set, then parsing,
formatting and appending. `writeOk` tells whether the file append
succeeds. -/
def logstream (cfg : LSConfig) (writeOk : Bool) (req : LSRequest) : LSOutcome :=
  if token_check_enabled cfg && pyTruthy (LOGSTREAM_TOKEN cfg) then
    let auth := authHeader req
    if !(pyStartsWith auth "Bearer ") then
      .response 401 "Missing Bearer token" none
    else
      -- `token = auth.split(" ", 1)[1]`; since `auth` starts with
      -- `"Bearer "` the first space is at index 6, so the second part
      -- is everything after index 7.
      let token := pyDrop auth 7
      if token ≠ (LOGSTREAM_TOKEN cfg).getD "" then
        .response 401 "Invalid Bearer token" none
      else
        logstream_after_auth writeOk req.body
  else
    logstream_after_auth writeOk req.body

/-- The whole token check of lines 21–27 as one predicate: `true` exactly
when control reaches the JSON-parsing part of the handler. -/
def auth_ok (cfg : LSConfig) (req : LSRequest) : Bool :=
  if token_check_enabled cfg && pyTruthy (LOGSTREAM_TOKEN cfg) then
    pyStartsWith (authHeader req) "Bearer "
      && (pyDrop (authHeader req) 7 == (LOGSTREAM_TOKEN cfg).getD "")
  else true

/-!
## `src/start_http.py`
-/

/-- `TIMEOUT_MINUTES = 5` (line 11). -/
def TIMEOUT_MINUTES : Nat := 5

/-- `ALLOWED_FILES` (line 12): the fixed allow-list of servable paths. -/
def ALLOWED_FILES : List String :=
  ["/", "/index.html", "/shapes.js", "/images/mainmenu.png", "/styles.css",
   "/favicon.ico", "/auto.html"]

/-- One entry written to the server's operational log (`logger.info` /
`logger.warning` / `logger.error` calls inside the handler). -/
inductive LogRecord where
  | servingAllowed (path : String) (addr : String)
  | blocked (path : String) (addr : String)
  | browserLog (entry : String)
  | handlerFailed
deriving DecidableEq

/-- Response of `RestrictedHandler.do_GET`: status code, served file
content (when any), extra headers added by `end_headers`, and the
operational-log entries recorded while handling the request. -/
structure GetResponse where
  status : Nat
  content : Option String
  extraHeaders : List (String × String)
  logs : List LogRecord
deriving DecidableEq

/-- The cache-disabling headers `end_headers` adds (lines 63–69): present
exactly when the request path is in the allow-list. -/
def cacheHeaders (path : String) : List (String × String) :=
  if path ∈ ALLOWED_FILES then
    [("Cache-Control", "no-store, no-cache, must-revalidate, max-age=0"),
     ("Pragma", "no-cache"),
     ("Expires", "0")]
  else []

/-- `RestrictedHandler.do_GET` (lines 30–36).  `fs` is the file system the
base `SimpleHTTPRequestHandler` serves from (`none` when nothing exists at
a path).  An allow-listed path is delegated to `super().do_GET()`, which
serves the content with status 200 (404 from the base handler when the
file is missing); any other path is answered 404 and the blocked path and
client address are recorded. -/
def do_GET (fs : String → Option String) (path addr : String) : GetResponse :=
  if path ∈ ALLOWED_FILES then
    match fs path with
    | some c => ⟨200, some c, cacheHeaders path, [.servingAllowed path addr]⟩
    | none => ⟨404, none, cacheHeaders path, [.servingAllowed path addr]⟩
  else
    ⟨404, none, cacheHeaders path, [.blocked path addr]⟩

/-- Response of `RestrictedHandler.do_POST`: status code, text appended to
`browser_logs.txt` (`none` when nothing was appended), and operational-log
entries. -/
structure PostResponse where
  status : Nat
  appended : Option String
  logs : List LogRecord
deriving DecidableEq

/-- `data.get('level','INFO').upper()` in line 44: `"INFO"` when the key is
absent, the uppercased string when the value is a string, and `none` when
the value is a non-string (whose `.upper()` raises, caught by the same
`except` as a parse failure). -/
def levelUpper (fields : List (String × Json)) : Option String :=
  match dictFind fields "level" with
  | none => some "INFO"
  | some (.str s) => some (pyUpper s)
  | some _ => none

/-- The browser-log entry built at lines 44–47: the timestamp `now`, the
client address, the uppercased level and the message, plus an indented
`Extra:` line when the `extra` key is present; `none` when building it
raises (non-string `level`). -/
def format_browser_entry (now addr : String) (fields : List (String × Json)) :
    Option String :=
  match levelUpper fields with
  | none => none
  | some lvl =>
      let entry := now ++ " [" ++ addr ++ "] " ++ lvl ++ ": "
        ++ dictGetStr fields "message" "" ++ "\n"
      match dictFind fields "extra" with
      | some v => some (entry ++ "      Extra: " ++ jsonDumps v ++ "\n")
      | none => some entry

/-- `RestrictedHandler.do_POST` (lines 38–57).  `now` is
`time.strftime('%Y-%m-%d %H:%M:%S')`; `body` is the result of
`json.loads(raw_data.decode('utf-8'))`; `writeOk` tells whether the
append to `browser_logs.txt` succeeds.  Every exception inside the `try`
block — parse failure, attribute errors while formatting, and a failing
file write — lands in the same `except` branch, which logs the failure
and replies `400 "Bad log data"`.  A non-`/log` path is answered 404. -/
def do_POST (writeOk : Bool) (now addr path : String) (body : Except Unit Json) :
    PostResponse :=
  if path = "/log" then
    match body with
    | .error _ => ⟨400, none, [.handlerFailed]⟩
    | .ok (.obj fields) =>
        match format_browser_entry now addr fields with
        | none => ⟨400, none, [.handlerFailed]⟩
        | some entry =>
            if writeOk then ⟨200, some entry, [.browserLog entry]⟩
            else ⟨400, none, [.handlerFailed]⟩
    | .ok _ => ⟨400, none, [.handlerFailed]⟩
  else ⟨404, none, []⟩

/-!
### The auto-shutdown timer

`run_server` (lines 71–87) starts `shutdown_server_after_timeout` in a
background thread: it sleeps `TIMEOUT_MINUTES * 60` seconds and then calls
`httpd.shutdown()`, upon which `serve_forever()` returns and the process
stops.  This is embedded as a discrete transition system over seconds: the
timer counts down from `TIMEOUT_MINUTES * 60`; when it hits zero the
shutdown call moves the server from `Running` to `ShuttingDown`, and the
`serve_forever` loop then terminates, reaching `Stopped`.  No transition
ever increases the timer (the timer is set once and never reset). -/

/-- Lifecycle phase of the static server. -/
inductive ServerPhase where
  | Running
  | ShuttingDown
  | Stopped
deriving DecidableEq

/-- State of the static server: its phase and the seconds remaining on the
background shutdown timer. -/
structure ServerState where
  phase : ServerPhase
  timer : Nat
deriving DecidableEq

/-- State at process start: running, with the timer set to
`TIMEOUT_MINUTES * 60` seconds. -/
def initServer : ServerState :=
  ⟨.Running, TIMEOUT_MINUTES * 60⟩

/-- One second of server life: while running, the sleep in
`shutdown_server_after_timeout` consumes the timer; when it has elapsed,
`httpd.shutdown()` is called (`ShuttingDown`), after which
`serve_forever()` returns (`Stopped`). -/
def serverStep (s : ServerState) : ServerState :=
  match s.phase with
  | .Running => if s.timer = 0 then ⟨.ShuttingDown, 0⟩ else ⟨.Running, s.timer - 1⟩
  | .ShuttingDown => ⟨.Stopped, 0⟩
  | .Stopped => s

/-!
## Helper lemmas
-/

/-- Appending strings adds their newline counts. -/
theorem countNewlines_append (a b : String) :
    countNewlines (a ++ b) = countNewlines a + countNewlines b := by
  cases a with
  | mk as =>
    cases b with
    | mk bs =>
      show ((as ++ bs).filter (fun c => c == '\n')).length
        = (as.filter (fun c => c == '\n')).length + (bs.filter (fun c => c == '\n')).length
      rw [List.filter_append, List.length_append]

/-- When the token check of lines 21–27 passes (`auth_ok`), the handler
proceeds to the JSON-parsing part. -/
theorem logstream_eq_after_auth (cfg : LSConfig) (w : Bool) (req : LSRequest)
    (h : auth_ok cfg req = true) :
    logstream cfg w req = logstream_after_auth w req.body := by
  unfold auth_ok at h
  unfold logstream
  by_cases hc : (token_check_enabled cfg && pyTruthy (LOGSTREAM_TOKEN cfg)) = true
  · rw [if_pos hc] at h
    rw [if_pos hc]
    obtain ⟨h1, h2⟩ := Bool.and_eq_true_iff.mp h
    have h2' : pyDrop (authHeader req) 7 = (LOGSTREAM_TOKEN cfg).getD "" := by
      simpa using h2
    simp [h1, h2']
  · rw [if_neg hc]

/-- The closed-form run of the shutdown timer: for the first
`TIMEOUT_MINUTES * 60` seconds the server is running with the timer
counting down. -/
theorem serverState_run (n : Nat) (h : n ≤ TIMEOUT_MINUTES * 60) :
    serverStep^[n] initServer = ⟨.Running, TIMEOUT_MINUTES * 60 - n⟩ := by
  induction n with
  | zero => rfl
  | succ k ih =>
    have hk : k ≤ TIMEOUT_MINUTES * 60 := Nat.le_of_succ_le h
    rw [Function.iterate_succ_apply', ih hk]
    have hne : TIMEOUT_MINUTES * 60 - k ≠ 0 := by
      simp only [TIMEOUT_MINUTES] at h ⊢
      omega
    simp only [serverStep, hne, if_false, if_neg hne]
    have harith : TIMEOUT_MINUTES * 60 - k - 1 = TIMEOUT_MINUTES * 60 - (k + 1) := by
      omega
    rw [harith]

/-!
## Claims
-/

/-- C1, counterexample: a request whose `message` field contains a newline
makes the handler append text containing two newlines, so the log file
gains two lines, not "exactly one well-formed line ... for every value of
the message field".  (Token check disabled via `LOGSTREAM_TOKEN_CHECK="0"`,
so the request passes any token check; the write succeeds.) -/
theorem C1_counterexample :
    logstream ⟨none, some "0", none⟩ true
      ⟨none, .ok (.obj [("message", .str "a\nb")])⟩
      = .response 204 "" (some " [INFO] a\nb | page= | agent=\n")
    ∧ countNewlines " [INFO] a\nb | page= | agent=\n" = 2 :=
  ⟨by decide, by decide⟩

/-- C1, amended: for every `POST /logstream` request that passes the token
check, whose body parses as a JSON object, and whose file write succeeds,
the handler returns status 204 with an empty body and appends the
formatted event followed by a single trailing newline; the appended text
has exactly one newline more than the formatted line itself, so the file
gains exactly one line whenever the formatted field values contain no
newline characters. -/
theorem C1_amended_ok (cfg : LSConfig) (req : LSRequest) (fields : List (String × Json))
    (hauth : auth_ok cfg req = true)
    (hbody : req.body = Except.ok (Json.obj fields)) :
    logstream cfg true req
      = .response 204 "" (some (format_log_line fields ++ "\n"))
    ∧ countNewlines (format_log_line fields ++ "\n")
      = countNewlines (format_log_line fields) + 1
    ∧ (countNewlines (format_log_line fields) = 0 →
        countNewlines (format_log_line fields ++ "\n") = 1) := by
  have h1 : logstream cfg true req
      = .response 204 "" (some (format_log_line fields ++ "\n")) := by
    rw [logstream_eq_after_auth cfg true req hauth, hbody]
    rfl
  have hn : countNewlines "\n" = 1 := by decide
  have h2 : countNewlines (format_log_line fields ++ "\n")
      = countNewlines (format_log_line fields) + 1 := by
    rw [countNewlines_append, hn]
  exact ⟨h1, h2, fun h0 => by rw [h2, h0]⟩

/-- C1, witness for the amended theorem at a concrete request. -/
theorem C1_witness :
    logstream ⟨none, none, none⟩ true ⟨none, .ok (.obj [("message", .str "hi")])⟩
      = .response 204 "" (some (format_log_line [("message", .str "hi")] ++ "\n"))
    ∧ countNewlines (format_log_line [("message", .str "hi")] ++ "\n")
      = countNewlines (format_log_line [("message", .str "hi")]) + 1
    ∧ (countNewlines (format_log_line [("message", .str "hi")]) = 0 →
        countNewlines (format_log_line [("message", .str "hi")] ++ "\n") = 1) :=
  C1_amended_ok ⟨none, none, none⟩ ⟨none, .ok (.obj [("message", .str "hi")])⟩
    [("message", .str "hi")] (by decide) rfl

/-- C2: the concrete scenario — `POST /logstream` with the documented body
and a correct bearer token returns 204 with an empty body and appends
exactly the line
`2024-01-01T00:00:00Z [ERROR] boom | page=/x | agent=UA` plus newline. -/
theorem C2_concrete_scenario :
    logstream ⟨some "s3cret", none, none⟩ true
      ⟨some "Bearer s3cret",
       .ok (.obj [("timestamp", .str "2024-01-01T00:00:00Z"), ("level", .str "ERROR"),
                  ("message", .str "boom"), ("page", .str "/x"),
                  ("userAgent", .str "UA")])⟩
      = .response 204 "" (some "2024-01-01T00:00:00Z [ERROR] boom | page=/x | agent=UA\n") := by
  decide

/-- C3: when token enforcement is enabled and a non-empty secret is
configured, a request whose `Authorization` header is absent, does not
start with `"Bearer "`, or carries a token different from the secret is
answered 401 and nothing is appended to the log file. -/
theorem C3_unauthorized (cfg : LSConfig) (w : Bool) (req : LSRequest) (s : String)
    (henabled : token_check_enabled cfg = true)
    (hsecret : LOGSTREAM_TOKEN cfg = some s) (hne : s ≠ "")
    (hbad : req.authorization = none
      ∨ pyStartsWith (authHeader req) "Bearer " = false
      ∨ pyDrop (authHeader req) 7 ≠ s) :
    (logstream cfg w req).statusOf = some 401
    ∧ (logstream cfg w req).appendedOf = none := by
  have htr : pyTruthy (LOGSTREAM_TOKEN cfg) = true := by
    rw [hsecret]
    simpa [pyTruthy] using hne
  have hc : (token_check_enabled cfg && pyTruthy (LOGSTREAM_TOKEN cfg)) = true := by
    rw [henabled, htr]
    rfl
  unfold logstream
  rw [if_pos hc]
  rcases hbad with hnone | hpre | htok
  · have hempty : authHeader req = "" := by
      rw [authHeader, hnone]
      rfl
    have : pyStartsWith (authHeader req) "Bearer " = false := by
      rw [hempty]
      decide
    simp [this, LSOutcome.statusOf, LSOutcome.appendedOf]
  · simp [hpre, LSOutcome.statusOf, LSOutcome.appendedOf]
  · by_cases hp : pyStartsWith (authHeader req) "Bearer " = true
    · have hne2 : pyDrop (authHeader req) 7 ≠ (LOGSTREAM_TOKEN cfg).getD "" := by
        rw [hsecret]
        exact htok
      simp [hp, hne2, LSOutcome.statusOf, LSOutcome.appendedOf]
    · have hp' : pyStartsWith (authHeader req) "Bearer " = false := by
        simpa using hp
      simp [hp', LSOutcome.statusOf, LSOutcome.appendedOf]

/-- C3, witness: enforcement on (default toggle), secret `"tok"`, request
without an `Authorization` header. -/
theorem C3_witness :
    (logstream ⟨some "tok", none, none⟩ true ⟨none, .ok (.obj [])⟩).statusOf = some 401
    ∧ (logstream ⟨some "tok", none, none⟩ true ⟨none, .ok (.obj [])⟩).appendedOf = none :=
  C3_unauthorized ⟨some "tok", none, none⟩ true ⟨none, .ok (.obj [])⟩ "tok"
    (by decide) rfl (by decide) (Or.inl rfl)

/-- C4, counterexample: a request with an unparseable body but no valid
bearer token (enforcement enabled, secret `"s"`) is answered 401, not 400 —
the token check runs before JSON parsing, so the claim fails as stated. -/
theorem C4_counterexample :
    logstream ⟨some "s", none, none⟩ true ⟨none, Except.error ()⟩
      = .response 401 "Missing Bearer token" none
    ∧ (logstream ⟨some "s", none, none⟩ true ⟨none, Except.error ()⟩).statusOf
      ≠ some 400 :=
  ⟨by decide, by decide⟩

/-- C4, amended: for every `POST /logstream` request that passes the token
check and whose body is not parseable as JSON, the handler responds 400
and nothing is appended to the log file. -/
theorem C4_amended_bad_json (cfg : LSConfig) (w : Bool) (req : LSRequest)
    (hauth : auth_ok cfg req = true) (hbody : req.body = Except.error ()) :
    logstream cfg w req = .response 400 "Invalid JSON" none := by
  rw [logstream_eq_after_auth cfg w req hauth, hbody]
  rfl

/-- C4, witness for the amended theorem: no secret configured, so the
token check passes, and a malformed body yields 400 with nothing written. -/
theorem C4_witness :
    logstream ⟨none, none, none⟩ true ⟨none, Except.error ()⟩
      = .response 400 "Invalid JSON" none :=
  C4_amended_bad_json ⟨none, none, none⟩ true ⟨none, Except.error ()⟩ (by decide) rfl

/-- C5, counterexample: the toggle value `"FALSE"` is not one of `"0"`,
`"no"`, `"false"`, `""`, yet it disables token enforcement — the code
strips and lowercases the value before comparing, so "for any other toggle
value enforcement is enabled" fails as stated. -/
theorem C5_counterexample :
    token_check_enabled ⟨none, some "FALSE", none⟩ = false
    ∧ "FALSE" ∉ ["0", "no", "false", ""] :=
  ⟨by decide, by decide⟩

/-- C5, amended: token enforcement is disabled precisely when the toggle
value, stripped of surrounding whitespace and lowercased, is one of `"0"`,
`"no"`, `"false"`, `""`; when the variable is unset the default `"1"`
applies and enforcement is enabled. -/
theorem C5_amended_toggle :
    (∀ cfg : LSConfig, token_check_enabled cfg = false
        ↔ pyLower (pyStrip (LOGSTREAM_TOKEN_CHECK cfg)) ∈ ["0", "no", "false", ""])
    ∧ (∀ cfg : LSConfig, cfg.tokenCheckEnv = none → token_check_enabled cfg = true) := by
  constructor
  · intro cfg
    simp only [token_check_enabled, Bool.not_eq_false', decide_eq_true_eq]
  · intro cfg h
    unfold token_check_enabled LOGSTREAM_TOKEN_CHECK
    rw [h]
    decide

/-- C5, witness: the unset default enables enforcement, and the value
`" No "` (whitespace, mixed case) disables it. -/
theorem C5_witness :
    token_check_enabled ⟨none, none, none⟩ = true
    ∧ token_check_enabled ⟨none, some " No ", none⟩ = false :=
  ⟨C5_amended_toggle.2 ⟨none, none, none⟩ rfl,
   (C5_amended_toggle.1 ⟨none, some " No ", none⟩).mpr (by decide)⟩

/-- C6: every GET request whose path is not in the allow-list is answered
404 with no file content served, and the blocked path and client address
are recorded in the operational log. -/
theorem C6_blocked_get (fs : String → Option String) (path addr : String)
    (h : path ∉ ALLOWED_FILES) :
    do_GET fs path addr = ⟨404, none, [], [.blocked path addr]⟩ := by
  simp [do_GET, cacheHeaders, h]

/-- C6, witness at a path outside the allow-list. -/
theorem C6_witness :
    do_GET (fun _ => none) "/etc/passwd" "203.0.113.9"
      = ⟨404, none, [], [.blocked "/etc/passwd" "203.0.113.9"]⟩ :=
  C6_blocked_get (fun _ => none) "/etc/passwd" "203.0.113.9" (by decide)

/-- C7: every GET request whose path is in the allow-list (and whose file
exists) is served with the file's content, and the response carries the
cache-disabling headers `Cache-Control: no-store, no-cache,
must-revalidate, max-age=0`, `Pragma: no-cache`, `Expires: 0`. -/
theorem C7_allowed_get (fs : String → Option String) (path addr c : String)
    (hmem : path ∈ ALLOWED_FILES) (hfs : fs path = some c) :
    do_GET fs path addr
      = ⟨200, some c,
         [("Cache-Control", "no-store, no-cache, must-revalidate, max-age=0"),
          ("Pragma", "no-cache"), ("Expires", "0")],
         [.servingAllowed path addr]⟩ := by
  simp [do_GET, cacheHeaders, hmem, hfs]

/-- C7, witness at `/index.html`. -/
theorem C7_witness :
    do_GET (fun p => if p = "/index.html" then some "<html>" else none)
      "/index.html" "203.0.113.9"
      = ⟨200, some "<html>",
         [("Cache-Control", "no-store, no-cache, must-revalidate, max-age=0"),
          ("Pragma", "no-cache"), ("Expires", "0")],
         [.servingAllowed "/index.html" "203.0.113.9"]⟩ :=
  C7_allowed_get (fun p => if p = "/index.html" then some "<html>" else none)
    "/index.html" "203.0.113.9" "<html>" (by decide) (by decide)

/-- C8: the timeout is `5 * 60 = 300` seconds; for the whole timeout the
server is running, one step later the timer has initiated shutdown
(`ShuttingDown`), one step after that the serve loop has exited
(`Stopped`); and no transition ever increases the timer — it is set once
at start and never reset. -/
theorem C8_timeout_shutdown :
    TIMEOUT_MINUTES * 60 = 300
    ∧ (∀ n : Nat, n ≤ 300 → (serverStep^[n] initServer).phase = .Running)
    ∧ (serverStep^[301] initServer).phase = .ShuttingDown
    ∧ (serverStep^[302] initServer).phase = .Stopped
    ∧ (∀ s : ServerState, (serverStep s).timer ≤ s.timer) := by
  refine ⟨rfl, ?_, ?_, ?_, ?_⟩
  · intro n hn
    rw [serverState_run n hn]
  · show (serverStep^[300 + 1] initServer).phase = .ShuttingDown
    rw [Function.iterate_succ_apply', serverState_run 300 (by decide)]
    rfl
  · show (serverStep^[300 + 1 + 1] initServer).phase = .Stopped
    rw [Function.iterate_succ_apply', Function.iterate_succ_apply',
      serverState_run 300 (by decide)]
    rfl
  · intro s
    rcases s with ⟨ph, t⟩
    cases ph with
    | Running =>
        by_cases h0 : t = 0
        · simp [serverStep, h0]
        · simp [serverStep, h0]
    | ShuttingDown => simp [serverStep]
    | Stopped => simp [serverStep]

/-- C8, witness: seven seconds in the server is still running, and one
step from a running state never increases the timer. -/
theorem C8_witness :
    (serverStep^[7] initServer).phase = .Running
    ∧ (serverStep (⟨.Running, 9⟩ : ServerState)).timer ≤ 9 :=
  ⟨C8_timeout_shutdown.2.1 7 (by decide),
   C8_timeout_shutdown.2.2.2.2 ⟨.Running, 9⟩⟩

/-- C9: a request that passes the token check and whose body parses as
valid JSON that is not an object makes the handler raise an uncaught
exception at the `data.get` field access (the `try/except` only wraps
`get_json`), so the request is not answered 400. -/
theorem C9_non_object_body (cfg : LSConfig) (w : Bool) (req : LSRequest) (j : Json)
    (hauth : auth_ok cfg req = true) (hbody : req.body = Except.ok j)
    (hnotobj : ∀ fields, j ≠ Json.obj fields) :
    logstream cfg w req = .pyError
    ∧ (logstream cfg w req).statusOf ≠ some 400 := by
  have h := logstream_eq_after_auth cfg w req hauth
  rw [hbody] at h
  have hres : logstream cfg w req = LSOutcome.pyError := by
    rw [h]
    cases j with
    | obj fields => exact absurd rfl (hnotobj fields)
    | null => rfl
    | boolean b => rfl
    | num n => rfl
    | str s => rfl
    | arr xs => rfl
  refine ⟨hres, ?_⟩
  rw [hres]
  decide

/-- C9, witness: a top-level JSON array. -/
theorem C9_witness :
    logstream ⟨none, none, none⟩ true ⟨none, .ok (.arr [])⟩ = .pyError
    ∧ (logstream ⟨none, none, none⟩ true ⟨none, .ok (.arr [])⟩).statusOf
      ≠ some 400 :=
  C9_non_object_body ⟨none, none, none⟩ true ⟨none, .ok (.arr [])⟩ (.arr [])
    (by decide) rfl (fun fields hcontra => Json.noConfusion hcontra)

/-- C10: when the file append in the `/log` handler fails, the same
`except` branch as a parse failure answers — status 400, nothing appended,
the failure logged — identical to the response for a malformed body; and
no input to `do_POST` ever produces a 500 response. -/
theorem C10_append_failure :
    (∀ (now addr : String) (fields : List (String × Json)) (entry : String),
        format_browser_entry now addr fields = some entry →
        do_POST false now addr "/log" (.ok (.obj fields))
          = ⟨400, none, [.handlerFailed]⟩
        ∧ do_POST false now addr "/log" (Except.error ())
          = ⟨400, none, [.handlerFailed]⟩)
    ∧ (∀ (w : Bool) (now addr path : String) (body : Except Unit Json),
        (do_POST w now addr path body).status ≠ 500) := by
  constructor
  · intro now addr fields entry h
    constructor
    · simp [do_POST, h]
    · rfl
  · intro w now addr path body
    unfold do_POST
    by_cases hp : path = "/log"
    · rw [if_pos hp]
      rcases body with e | j
      · exact (by decide : (400 : Nat) ≠ 500)
      · cases j with
        | obj fields =>
            rcases hfe : format_browser_entry now addr fields with _ | entry
            · simp [hfe]
            · cases w with
              | true => simp [hfe]
              | false => simp [hfe]
        | null => exact (by decide : (400 : Nat) ≠ 500)
        | boolean b => exact (by decide : (400 : Nat) ≠ 500)
        | num n => exact (by decide : (400 : Nat) ≠ 500)
        | str s => exact (by decide : (400 : Nat) ≠ 500)
        | arr xs => exact (by decide : (400 : Nat) ≠ 500)
    · rw [if_neg hp]
      exact (by decide : (404 : Nat) ≠ 500)

/-- C10, witness: a failing append on a well-formed body gives the same
400 as a parse failure, and a successful request is not a 500 either. -/
theorem C10_witness :
    (do_POST false "2024-01-01 00:00:00" "1.2.3.4" "/log"
        (.ok (.obj [("message", .str "m")])) = ⟨400, none, [.handlerFailed]⟩
      ∧ do_POST false "2024-01-01 00:00:00" "1.2.3.4" "/log" (Except.error ())
        = ⟨400, none, [.handlerFailed]⟩)
    ∧ (do_POST true "2024-01-01 00:00:00" "1.2.3.4" "/log"
        (.ok (.obj [("message", .str "m")]))).status ≠ 500 :=
  ⟨C10_append_failure.1 "2024-01-01 00:00:00" "1.2.3.4" [("message", .str "m")]
      "2024-01-01 00:00:00 [1.2.3.4] INFO: m\n" (by decide),
   C10_append_failure.2 true "2024-01-01 00:00:00" "1.2.3.4" "/log"
      (.ok (.obj [("message", .str "m")]))⟩
